import Mathlib

/-!
Shallow embedding of the service registry of `go-xml-rpc` (`src/map.go`):
the data model (`service`, `serviceMethod`, `serviceMap`), method-shape
validation and registration (`register`), and dotted-name resolution (`get`).

Go `reflect` types are modelled by `GoType`; a registered receiver is
modelled by `Receiver`, carrying the data `register` reads off it through
reflection (the indirected type name, the `String()` of its type, and its
method set in `Method(i)` order).  Go maps are modelled by association
lists with overwrite-on-insert (`mapInsert`) and `List.lookup`; a `nil`
map is `Option.none`.  A nil-pointer dereference (the fault of
`get`'s log line, which reads `service.name` before the nil check) is the
explicit outcome `GetResult.panicNilDeref`.
-/

namespace GoXmlRpc

/-- Model of a Go `reflect.Type` as far as `map.go` inspects one: either a
pointer type or a named (possibly unnamed, `name = ""`) type with its
package path.  `pkgPath = ""` models a predeclared/builtin or unnamed type. -/
inductive GoType where
  | ptr (elem : GoType)
  | named (name pkgPath : String)
deriving DecidableEq

/-- Junk value returned where Go `reflect` would panic (never reached on the
guarded paths `map.go` takes). -/
def dummyType : GoType := .named "" ""

/-- Kind check: `t.Kind() == reflect.Ptr`. -/
def GoType.isPtr : GoType → Bool
  | .ptr _ => true
  | .named _ _ => false

/-- Go `Type.Elem()` of a pointer type; junk on a named type (Go would
panic, and `map.go` only calls `Elem` after a `Kind() == Ptr` check). -/
def GoType.ptrElem : GoType → GoType
  | .ptr e => e
  | .named n p => .named n p

/-- Go `Type.Name()`: empty for a pointer type. -/
def GoType.typeName : GoType → String
  | .ptr _ => ""
  | .named n _ => n

/-- Go `Type.PkgPath()`: empty for a pointer type. -/
def GoType.path : GoType → String
  | .ptr _ => ""
  | .named _ p => p

/-- The precomputed `typeOfError` of map.go: the `error` interface type. -/
def typeOfError : GoType := .named "error" ""

/-- The precomputed `typeOfRequest` of map.go: the `net/http.Request`
struct type. -/
def typeOfRequest : GoType := .named "Request" "net/http"

/-- Source `isExported` (map.go:241): the first rune of the name is upper
case; false on the empty string (`utf8.DecodeRuneInString ""` yields
`RuneError`, which is not upper case). -/
def isExported (name : String) : Bool :=
  match name.data with
  | [] => false
  | c :: _ => c.isUpper

/-- Pointer-stripping loop of `isExportedOrBuiltin` (map.go:248). -/
def stripPtr : GoType → GoType
  | .ptr e => stripPtr e
  | .named n p => .named n p

/-- Source `isExportedOrBuiltin` (map.go:247): after stripping pointers,
the type name is exported or the package path is empty. -/
def isExportedOrBuiltin (t : GoType) : Bool :=
  isExported (stripPtr t).typeName || (stripPtr t).path == ""

/-- Model of one entry of a receiver's reflected method set
(`rcvrType.Method(i)`): the method name, its `PkgPath` (empty iff the
method is exported), the `In` types of its `Type` (index 0 is the
receiver, as Go reports for methods of a concrete type), and its `Out`
types. -/
structure GoMethod where
  name : String
  pkgPath : String
  ins : List GoType
  outs : List GoType
deriving DecidableEq

/-- Source struct `serviceMethod` (map.go:37), dropping the opaque
`reflect.Method` callable down to the `GoMethod` record. -/
structure serviceMethod where
  method : GoMethod
  argsType : GoType
  replyType : GoType
deriving DecidableEq

/-- Source struct `service` (map.go:29).  The `rcvr reflect.Value` field is
opaque to all the code under proof and is dropped; `rcvrType` keeps the
`String()` of the receiver's type, the only use the source makes of it.
The Go map `methods` is an association list (see `mapInsert`). -/
structure service where
  name : String
  rcvrType : String
  methods : List (String × serviceMethod)
  passReq : Bool
deriving DecidableEq

/-- Source struct `serviceMap` (map.go:48) without the mutex (all the code
under proof runs the lock-protected sections atomically; the embedding
passes the state explicitly).  `services = none` models the `nil` Go map
before its first non-default registration. -/
structure serviceMap where
  services : Option (List (String × service))
  defaultService : Option service
deriving DecidableEq

/-- The registry of a freshly constructed server: nil services map, no
default service. -/
def emptyMap : serviceMap := { services := none, defaultService := none }

/-- Go map assignment `m[k] = v` on the association-list model: the new
binding shadows and removes any previous binding of `k`. -/
def mapInsert {α : Type} (k : String) (v : α) (l : List (String × α)) :
    List (String × α) :=
  (k, v) :: l.filter (fun p => p.1 != k)

/-- Errors surfaced by `register` and `get`, one constructor per
`fmt.Errorf` site of map.go, carrying the formatted-in string. -/
inductive RpcError where
  | notExported (typeName : String)
  | noServiceName (typeString : String)
  | noSuitableMethods (serviceName : String)
  | alreadyDefined (serviceName : String)
  | illFormed (method : String)
  | serviceNotFound (method : String)
  | methodNotFound (method : String)
deriving DecidableEq

/-- Body of the method loop of `register` (map.go:75-147) for one method:
`none` when a check fails and the loop `continue`s, otherwise the
`serviceMethod` stored into `s.methods`.  The checks appear in source
order: exported, in-count, `*http.Request` first argument when `passReq`,
args pointer, reply pointer, out-count, `error` out type. -/
def validateMethod (passReq : Bool) (method : GoMethod) : Option serviceMethod :=
  let paramOffset : Nat := if passReq then 1 else 0
  if method.pkgPath ≠ "" then none
  else if method.ins.length ≠ 3 + paramOffset then none
  else if passReq = true ∧
      ((method.ins.getD 1 dummyType).isPtr = false ∨
        (method.ins.getD 1 dummyType).ptrElem ≠ typeOfRequest) then none
  else
    let args := method.ins.getD (1 + paramOffset) dummyType
    if args.isPtr = false ∨ isExportedOrBuiltin args = false then none
    else
      let reply := method.ins.getD (2 + paramOffset) dummyType
      if reply.isPtr = false ∨ isExportedOrBuiltin reply = false then none
      else if method.outs.length ≠ 1 then none
      else if method.outs.getD 0 dummyType ≠ typeOfError then none
      else some { method := method, argsType := args.ptrElem, replyType := reply.ptrElem }

/-- One iteration of the method loop of `register`: install the method
into the accumulated method map when it validates, otherwise leave the map
as it is (the loop `continue`s). -/
def installMethod (passReq : Bool) (acc : List (String × serviceMethod))
    (method : GoMethod) : List (String × serviceMethod) :=
  match validateMethod passReq method with
  | none => acc
  | some sm => mapInsert method.name sm acc

/-- The whole method loop of `register` (map.go:75-147): fold over the
receiver's method set in order, installing each method that validates into
the service's method map. -/
def buildMethods (passReq : Bool) (ms : List GoMethod) :
    List (String × serviceMethod) :=
  ms.foldl (installMethod passReq) []

/-- The claim's reading of the shape checks as one conjunction, in the
claim's vocabulary: exported method, in-count `3 + offset` (receiver plus
`2 + (1 if passReq else 0)` parameters), `*http.Request` first parameter
when `passReq`, argument and reply pointers to exported-or-builtin types,
exactly one `error` result.  `validateMethod_isSome` proves it equivalent
to the source's sequence of checks. -/
def conformsB (passReq : Bool) (m : GoMethod) : Bool :=
  m.pkgPath == "" &&
  m.ins.length == 3 + (if passReq then 1 else 0) &&
  (!passReq ||
    ((m.ins.getD 1 dummyType).isPtr &&
      (m.ins.getD 1 dummyType).ptrElem == typeOfRequest)) &&
  ((m.ins.getD (1 + if passReq then 1 else 0) dummyType).isPtr &&
    isExportedOrBuiltin (m.ins.getD (1 + if passReq then 1 else 0) dummyType)) &&
  ((m.ins.getD (2 + if passReq then 1 else 0) dummyType).isPtr &&
    isExportedOrBuiltin (m.ins.getD (2 + if passReq then 1 else 0) dummyType)) &&
  m.outs.length == 1 &&
  (m.outs.getD 0 dummyType == typeOfError)

/-- What `register` reads off its untyped `rcvr` argument through
reflection: `typeName` is `reflect.Indirect(reflect.ValueOf rcvr).Type().Name()`,
`typeString` is `reflect.TypeOf(rcvr).String()`, and `methods` is the
method set of `reflect.TypeOf(rcvr)` in `Method(i)` order. -/
structure Receiver where
  typeName : String
  typeString : String
  methods : List GoMethod
deriving DecidableEq

/-- The service `register` constructs before touching the registry
(map.go:57-147): resolved name, receiver type string, validated method
map, `passReq` flag. -/
def mkService (rcvr : Receiver) (name : String) (passReq : Bool) : service :=
  { name := if name = "" then rcvr.typeName else name
    rcvrType := rcvr.typeString
    methods := buildMethods passReq rcvr.methods
    passReq := passReq }

/-- Source `register` (map.go:55-181), as a function from the registry
state to the new state and the returned error (`none` = success).  Checks
in source order: derived-name visibility (only when `name` is empty),
empty resolved name, empty validated method set; then under the lock the
default slot is overwritten unconditionally, while a named insert first
allocates a nil map or fails on a name collision. -/
def register (m : serviceMap) (rcvr : Receiver) (name : String)
    (passReq isDefault : Bool) : serviceMap × Option RpcError :=
  let s := mkService rcvr name passReq
  if name = "" ∧ isExported rcvr.typeName = false then
    (m, some (.notExported rcvr.typeName))
  else if s.name = "" then
    (m, some (.noServiceName rcvr.typeString))
  else if s.methods.length = 0 then
    (m, some (.noSuitableMethods s.name))
  else if isDefault then
    ({ m with defaultService := some s }, none)
  else
    match m.services with
    | none => ({ m with services := some (mapInsert s.name s []) }, none)
    | some l =>
      match l.lookup s.name with
      | some _ => (m, some (.alreadyDefined s.name))
      | none => ({ m with services := some (mapInsert s.name s l) }, none)

/-- Go `strings.Split(s, ".")` on the character list: every occurrence of
`.` separates; the empty input yields one empty part, `n` dots yield
`n + 1` parts. -/
def splitDot : List Char → List (List Char)
  | [] => [[]]
  | c :: rest =>
    if c = '.' then [] :: splitDot rest
    else
      match splitDot rest with
      | [] => [[c]]
      | h :: t => (c :: h) :: t

/-- The `parts` of `get` (map.go:187): `strings.Split(method, ".")` as a
list of strings. -/
def methodParts (method : String) : List String :=
  (splitDot method.data).map (fun cs => String.mk cs)

/-- Outcome of `get`: a runtime fault (nil-pointer dereference), an error
return, or the resolved service and method. -/
inductive GetResult where
  | panicNilDeref
  | failure (e : RpcError)
  | success (s : service) (sm : serviceMethod)
deriving DecidableEq

/-- Source `get` (map.go:186-238).  `strings.Split` yields 1 part (bare
name: select the default service, look the part up in its methods), 2
parts (select the named service under part 0, look part 1 up in its
methods), or any other count (the ill-formed error; Go's split never
yields 0 parts, and that shape also falls to the error arm).  After the
service is selected, `log.Printf` reads `service.name` BEFORE the
`service == nil` check (map.go:210 vs map.go:214): on an absent service
the Go code faults with a nil-pointer dereference, modelled as
`panicNilDeref`, and the `serviceNotFound` return at map.go:216 is
unreachable. -/
def get (m : serviceMap) (method : String) : GetResult :=
  match methodParts method with
  | [p0] =>
    match m.defaultService with
    | none => .panicNilDeref
    | some s =>
      match s.methods.lookup p0 with
      | none => .failure (.methodNotFound method)
      | some sm => .success s sm
  | [p0, p1] =>
    match (m.services.getD []).lookup p0 with
    | none => .panicNilDeref
    | some s =>
      match s.methods.lookup p1 with
      | none => .failure (.methodNotFound method)
      | some sm => .success s sm
  | _ => .failure (.illFormed method)

/-- The `Say` method of the example server's `HelloService` receiver
(`src/unnamed/part_000`): exported, receiver then `*http.Request`, pointer
to an anonymous argument struct, pointer to an anonymous reply struct, one
`error` result. -/
def sayMethod : GoMethod :=
  { name := "Say", pkgPath := ""
    ins := [.ptr (.named "HelloService" "main"), .ptr typeOfRequest,
            .ptr (.named "" ""), .ptr (.named "" "")]
    outs := [typeOfError] }

/-- The example server's receiver, reduced to its `Say` method. -/
def helloRcvr : Receiver :=
  { typeName := "HelloService", typeString := "*main.HelloService"
    methods := [sayMethod] }

/-- An `Add` method of a `Calc` receiver in the shape required when
`passReq` is false: receiver, argument pointer, reply pointer, one `error`
result. -/
def addMethod : GoMethod :=
  { name := "Add", pkgPath := ""
    ins := [.ptr (.named "Calc" "main"), .ptr (.named "Args" "main"),
            .ptr (.named "Reply" "main")]
    outs := [typeOfError] }

/-- A receiver of type `Calc` whose one method `Add` conforms when
`passReq` is false. -/
def calcRcvr : Receiver :=
  { typeName := "Calc", typeString := "*main.Calc", methods := [addMethod] }

/-- An unexported method (non-empty `PkgPath`), failing the first shape
check. -/
def hiddenMethod : GoMethod :=
  { name := "hidden", pkgPath := "main"
    ins := [.ptr (.named "Foo" "main"), .ptr (.named "Args" "main"),
            .ptr (.named "Reply" "main")]
    outs := [typeOfError] }

/-- A receiver of type `Foo` none of whose methods pass validation. -/
def fooRcvr : Receiver :=
  { typeName := "Foo", typeString := "*main.Foo", methods := [hiddenMethod] }

/-- Filtering out the bindings of one key leaves lookups of every other
key unchanged. -/
theorem lookup_filter_ne {α : Type} (k q : String) (l : List (String × α))
    (h : q ≠ k) :
    (l.filter (fun p => p.1 != k)).lookup q = l.lookup q := by
  induction l with
  | nil => rfl
  | cons p t ih =>
    by_cases hp : p.1 = k
    · have hqk : (q == k) = false := beq_eq_false_iff_ne.mpr h
      simp [List.filter_cons, hp, List.lookup, hqk, ih]
    · have hpk : (p.1 != k) = true := bne_iff_ne.mpr hp
      cases hqp : (q == p.1) with
      | true => simp [List.filter_cons, hpk, List.lookup, hqp]
      | false => simp [List.filter_cons, hpk, List.lookup, hqp, ih]

theorem lookup_mapInsert {α : Type} (k q : String) (v : α)
    (l : List (String × α)) :
    (mapInsert k v l).lookup q = if q = k then some v else l.lookup q := by
  by_cases h : q = k
  · simp [mapInsert, List.lookup, h]
  · have hq : (q == k) = false := beq_eq_false_iff_ne.mpr h
    simp [mapInsert, List.lookup, hq, h, lookup_filter_ne k q l h]

theorem lookup_mem_map_snd {α : Type} (l : List (String × α)) (k : String)
    (v : α) (h : l.lookup k = some v) : v ∈ l.map Prod.snd := by
  induction l with
  | nil => cases h
  | cons p t ih =>
    by_cases hk : (k == p.1) = true
    · simp only [List.lookup, hk] at h
      cases h
      exact List.mem_cons_self _ _
    · rw [Bool.not_eq_true] at hk
      simp only [List.lookup, hk] at h
      exact List.mem_cons_of_mem _ (ih h)

set_option maxHeartbeats 1000000 in
theorem validateMethod_isSome (p : Bool) (m : GoMethod) :
    (validateMethod p m).isSome = conformsB p m := by
  cases p <;> simp only [validateMethod, conformsB] <;>
    split_ifs <;>
    simp_all [-List.getD_eq_getElem?_getD] <;>
    intros <;>
    casesm _ ∨ _ <;>
    simp_all

/-- Success of a default registration does not depend on the registry
state: when it succeeds on one state it succeeds on every state, writing
only the default-service slot. -/
theorem register_default_of_succeeds (m mx : serviceMap) (rcvr : Receiver)
    (nm : String) (p : Bool)
    (h : (register mx rcvr nm p true).2 = none) :
    register m rcvr nm p true
      = ({ m with defaultService := some (mkService rcvr nm p) }, none) := by
  simp only [register] at h ⊢
  split_ifs at h ⊢
  simp_all

/-- The state after a successful non-default registration: the new service
is inserted into the services map (allocated when it was nil) and nothing
else changes. -/
theorem register_named_success_state (m : serviceMap) (rcvr : Receiver)
    (nm : String) (p : Bool)
    (h : (register m rcvr nm p false).2 = none) :
    (register m rcvr nm p false).1
      = ⟨some (mapInsert (mkService rcvr nm p).name (mkService rcvr nm p)
            (m.services.getD [])), m.defaultService⟩ := by
  simp only [register] at h ⊢
  split_ifs at h ⊢ <;> try simp_all
  split at h
  · rename_i heq
    rw [heq]
    simp
  · rename_i l heq
    split at h
    · simp at h
    · rename_i hl
      rw [heq]
      simp [hl]

/-- C1: the claim states that resolving a method whose selected service is
absent returns a ServiceNotFound error and never faults, the absence check
preceding any dereference.  The code does the opposite: its log call reads
`service.name` before the nil check, so `get` on the empty registry faults
with a nil-pointer dereference at "Foo.Bar" and never returns the
ServiceNotFound error. -/
theorem c1_resolve_absent_service_faults :
    get emptyMap "Foo.Bar" = .panicNilDeref ∧
    get emptyMap "Foo.Bar" ≠ .failure (.serviceNotFound "Foo.Bar") := by
  decide

/-- C7: a method name that splits into neither 1 nor 2 dot-separated
parts makes `get` fail with the ill-formed error, whatever the registry
state (no registry lookup is consulted). -/
theorem c7_malformed_method_name (m : serviceMap) (method : String)
    (h1 : (methodParts method).length ≠ 1)
    (h2 : (methodParts method).length ≠ 2) :
    get m method = .failure (.illFormed method) := by
  cases hp : methodParts method with
  | nil => simp [get, hp]
  | cons a t =>
    cases t with
    | nil => exact absurd (by rw [hp]; rfl) h1
    | cons b t2 =>
      cases t2 with
      | nil => exact absurd (by rw [hp]; rfl) h2
      | cons c t3 => simp [get, hp]

/-- Witness for C7 at the concrete input "A.B.C" on the empty registry. -/
theorem c7_malformed_method_name_witness :
    get emptyMap "A.B.C" = .failure (.illFormed "A.B.C") :=
  c7_malformed_method_name emptyMap "A.B.C" (by decide) (by decide)

/-- C10: the empty method name splits into one part and is looked up as a
bare name in the default service: when a default service exists and has no
method named "", `get ""` fails with the method-not-found error, not the
ill-formed one. -/
theorem c10_resolve_empty_string (m : serviceMap) (s : service)
    (hd : m.defaultService = some s)
    (hmiss : s.methods.lookup "" = none) :
    get m "" = .failure (.methodNotFound "") ∧
    get m "" ≠ .failure (.illFormed "") := by
  have hp : methodParts "" = [""] := by decide
  have h : get m "" = .failure (.methodNotFound "") := by
    simp [get, hp, hd, hmiss]
  exact ⟨h, by rw [h]; decide⟩

/-- Witness for C10: a registry whose default service is `Calc` resolves
"" to a method-not-found error. -/
theorem c10_resolve_empty_string_witness :
    get (register emptyMap calcRcvr "" false true).1 ""
      = .failure (.methodNotFound "") :=
  (c10_resolve_empty_string (register emptyMap calcRcvr "" false true).1
    (mkService calcRcvr "" false) (by decide) (by decide)).1

/-- C5 counterexample: the claim says the zero-eligible-methods error
names the receiver type.  With explicit name "Bar" on a receiver of type
`Foo` with no conforming method, the error carries the service name "Bar",
not the receiver type name "Foo". -/
theorem c5_error_names_service_not_receiver :
    (register emptyMap fooRcvr "Bar" false false).2
        = some (.noSuitableMethods "Bar") ∧
    (register emptyMap fooRcvr "Bar" false false).2
        ≠ some (.noSuitableMethods fooRcvr.typeName) := by
  decide

/-- C5 (amended): a receiver with zero shape-conforming methods makes
`register` fail with the no-eligible-methods error naming the resolved
service name (the receiver's type name exactly when the name was derived),
and the registry state is returned unchanged. -/
theorem c5_no_eligible_methods_fails_unchanged (m : serviceMap)
    (rcvr : Receiver) (name : String) (p d : Bool)
    (hname : ¬(name = "" ∧ isExported rcvr.typeName = false))
    (hne : (mkService rcvr name p).name ≠ "")
    (hzero : buildMethods p rcvr.methods = []) :
    register m rcvr name p d
      = (m, some (.noSuitableMethods (mkService rcvr name p).name)) := by
  have hm : (mkService rcvr name p).methods = [] := hzero
  simp only [register]
  rw [if_neg hname, if_neg hne, if_pos (by rw [hm]; rfl)]

/-- Witness for C5 (amended) at the concrete receiver `fooRcvr`. -/
theorem c5_no_eligible_methods_witness :
    register emptyMap fooRcvr "Bar" false false
      = (emptyMap, some (.noSuitableMethods "Bar")) :=
  c5_no_eligible_methods_fails_unchanged emptyMap fooRcvr "Bar" false false
    (by decide) (by decide) (by decide)

/-- C6 counterexample: the claim says an explicitly supplied non-public
service name fails with an invalid-name error.  The code only
visibility-checks derived names: registering `calcRcvr` under the
non-public explicit name "calc" succeeds. -/
theorem c6_explicit_nonpublic_name_accepted :
    isExported "calc" = false ∧
    (register emptyMap calcRcvr "calc" false false).2 = none := by
  decide

/-- C6 (amended): `register` returns the not-exported invalid-name error
exactly when the explicit name is empty and the derived type name is not
publicly visible; the empty-resolved-name error is unreachable; hence
explicitly supplied non-empty names are never visibility-checked. -/
theorem c6_invalid_name_iff_derived (m : serviceMap) (rcvr : Receiver)
    (name : String) (p d : Bool) :
    ((register m rcvr name p d).2 = some (.notExported rcvr.typeName) ↔
      name = "" ∧ isExported rcvr.typeName = false) ∧
    ∀ ts, (register m rcvr name p d).2 ≠ some (.noServiceName ts) := by
  simp only [register]
  split_ifs with h1 h2 h3 h4
  · simp [h1]
  · -- the empty-resolved-name branch is unreachable
    exfalso
    by_cases hn : name = ""
    · have : rcvr.typeName = "" := by
        simpa [mkService, hn] using h2
      exact h1 ⟨hn, by rw [this]; rfl⟩
    · simp only [mkService, if_neg hn] at h2
      exact hn h2
  · simp [h1]
  · simp [h1]
  · split
    · simp [h1]
    · split
      · simp [h1]
      · simp [h1]

/-- Lookup in the method map after one loop iteration: the method's name
reads back installed iff the method validated or it was already present. -/
theorem lookup_installMethod (p : Bool) (acc : List (String × serviceMethod))
    (mth : GoMethod) (key : String) :
    ((installMethod p acc mth).lookup key).isSome = true ↔
      (mth.name = key ∧ (validateMethod p mth).isSome = true) ∨
        (acc.lookup key).isSome = true := by
  unfold installMethod
  cases hv : validateMethod p mth with
  | none => simp
  | some sm =>
    rw [lookup_mapInsert]
    by_cases hk : key = mth.name
    · simp [hk]
    · have hk2 : mth.name ≠ key := fun h => hk h.symm
      simp [hk, hk2, hv]

/-- Lookup across the whole method loop, generalized over the
accumulator. -/
theorem lookup_foldl_installMethod (p : Bool) (ms : List GoMethod)
    (key : String) (acc : List (String × serviceMethod)) :
    (((ms.foldl (installMethod p) acc).lookup key).isSome = true) ↔
      (∃ mth ∈ ms, mth.name = key ∧ (validateMethod p mth).isSome = true) ∨
        (acc.lookup key).isSome = true := by
  induction ms generalizing acc with
  | nil => simp
  | cons mth rest ih =>
    rw [List.foldl_cons, ih, lookup_installMethod]
    constructor
    · rintro (h | (h | h))
      · obtain ⟨x, hx, hn, hv⟩ := h
        exact .inl ⟨x, List.mem_cons_of_mem _ hx, hn, hv⟩
      · exact .inl ⟨mth, List.mem_cons_self _ _, h.1, h.2⟩
      · exact .inr h
    · rintro (⟨x, hx, hn, hv⟩ | h)
      · rcases List.mem_cons.mp hx with hx1 | hx2
        · subst hx1
          exact .inr (.inl ⟨hn, hv⟩)
        · exact .inl ⟨x, hx2, hn, hv⟩
      · exact .inr (.inr h)

/-- C2: a key is present in the method set of the service built by
registration iff some method of the receiver bears that name and passes
all the shape checks of the claim (exported; receiver plus
`2 + (1 if passReq else 0)` parameters; `*http.Request` first parameter
when `passReq`; argument and reply pointers to exported-or-builtin types;
exactly one `error` result); every other method is skipped without
aborting the build. -/
theorem c2_installed_iff_conforms (p : Bool) (rcvr : Receiver)
    (nm key : String) :
    (((mkService rcvr nm p).methods.lookup key).isSome = true) ↔
      ∃ mth ∈ rcvr.methods, mth.name = key ∧ conformsB p mth = true := by
  show (((buildMethods p rcvr.methods).lookup key).isSome = true) ↔ _
  unfold buildMethods
  rw [lookup_foldl_installMethod]
  simp only [validateMethod_isSome, List.lookup_nil, Option.isSome_none,
    Bool.false_eq_true, or_false]

/-- C3: a second default registration that is valid in itself (it would
succeed on the empty registry) succeeds on any registry state — no
collision check — and unconditionally overwrites the previous default;
afterwards every bare-name resolution that succeeds returns the second
registration's service and one of its methods. -/
theorem c3_second_default_overwrites (m0 : serviceMap) (r1 r2 : Receiver)
    (n1 n2 : String) (p1 p2 : Bool)
    (h2 : (register emptyMap r2 n2 p2 true).2 = none) :
    (register (register m0 r1 n1 p1 true).1 r2 n2 p2 true).2 = none ∧
    (register (register m0 r1 n1 p1 true).1 r2 n2 p2 true).1.defaultService
      = some (mkService r2 n2 p2) ∧
    (∀ w w0 s sm, methodParts w = [w0] →
      get (register (register m0 r1 n1 p1 true).1 r2 n2 p2 true).1 w
          = .success s sm →
        s = mkService r2 n2 p2 ∧
        sm ∈ (mkService r2 n2 p2).methods.map Prod.snd) := by
  have hr := register_default_of_succeeds (register m0 r1 n1 p1 true).1
    emptyMap r2 n2 p2 h2
  rw [hr]
  refine ⟨rfl, rfl, ?_⟩
  intro w w0 s sm hw hsucc
  simp only [get, hw] at hsucc
  cases hl : (mkService r2 n2 p2).methods.lookup w0 with
  | none =>
    simp only [hl] at hsucc
    exact GetResult.noConfusion hsucc
  | some sm2 =>
    simp only [hl] at hsucc
    injection hsucc with hs hsm
    subst hs
    subst hsm
    exact ⟨rfl, lookup_mem_map_snd _ _ _ hl⟩

/-- Witness for C3: two default registrations in sequence, the second of
which succeeds. -/
theorem c3_second_default_overwrites_witness :
    (register (register emptyMap helloRcvr "" true true).1
        calcRcvr "" false true).2 = none :=
  (c3_second_default_overwrites emptyMap helloRcvr calcRcvr "" "" true false
    (by decide)).1

/-- C4: a non-default registration whose resolved name is already taken
by a named service fails with the already-defined error and returns the
registry state unchanged, so every later resolution behaves exactly as
before the failing call. -/
theorem c4_duplicate_name_rejected (m : serviceMap)
    (l : List (String × service)) (s0 : service) (rcvr : Receiver)
    (name : String) (p : Bool)
    (hm : m.services = some l)
    (hdup : l.lookup (mkService rcvr name p).name = some s0)
    (hname : ¬(name = "" ∧ isExported rcvr.typeName = false))
    (hne : (mkService rcvr name p).name ≠ "")
    (hmeth : ¬((mkService rcvr name p).methods.length = 0)) :
    register m rcvr name p false
        = (m, some (.alreadyDefined (mkService rcvr name p).name)) ∧
    ∀ w, get (register m rcvr name p false).1 w = get m w := by
  have hr : register m rcvr name p false
      = (m, some (.alreadyDefined (mkService rcvr name p).name)) := by
    simp only [register]
    rw [if_neg hname, if_neg hne, if_neg hmeth, if_neg (by decide)]
    split
    · rename_i heq
      rw [heq] at hm
      cases hm
    · rename_i l2 heq
      rw [hm] at heq
      injection heq with hl2
      subst hl2
      split
      · rfl
      · rename_i hl
        rw [hdup] at hl
        cases hl
  exact ⟨hr, fun w => by rw [hr]⟩

/-- Witness for C4: registering under "Calc" twice; the second call fails
and leaves the state of the first. -/
theorem c4_duplicate_name_rejected_witness :
    register (register emptyMap calcRcvr "Calc" false false).1
        helloRcvr "Calc" true false
      = ((register emptyMap calcRcvr "Calc" false false).1,
          some (.alreadyDefined "Calc")) :=
  (c4_duplicate_name_rejected (register emptyMap calcRcvr "Calc" false false).1
    [("Calc", mkService calcRcvr "Calc" false)] (mkService calcRcvr "Calc" false)
    helloRcvr "Calc" true (by decide) (by decide) (by decide) (by decide)
    (by decide)).1

/-- C8: after a successful non-default registration, resolving the dotted
name formed of the service's resolved name and an installed method name
returns exactly the registered service and the stored method descriptor,
with the argument and reply shapes recorded at validation time. -/
theorem c8_round_trip (m : serviceMap) (rcvr : Receiver)
    (name w mname : String) (p : Bool) (sm : serviceMethod)
    (hok : (register m rcvr name p false).2 = none)
    (hmeth : (mkService rcvr name p).methods.lookup mname = some sm)
    (hw : methodParts w = [(mkService rcvr name p).name, mname]) :
    get (register m rcvr name p false).1 w
        = .success (mkService rcvr name p) sm := by
  have hr := register_named_success_state m rcvr name p hok
  rw [hr]
  simp [get, hw, lookup_mapInsert, hmeth]

/-- Witness for C8: register `Calc` with its `Add` method and resolve
"Calc.Add". -/
theorem c8_round_trip_witness :
    get (register emptyMap calcRcvr "Calc" false false).1 "Calc.Add"
      = .success (mkService calcRcvr "Calc" false)
          ⟨addMethod, .named "Args" "main", .named "Reply" "main"⟩ :=
  c8_round_trip emptyMap calcRcvr "Calc" "Calc.Add" "Add" false
    ⟨addMethod, .named "Args" "main", .named "Reply" "main"⟩
    (by decide) (by decide) (by decide)

/-- C9: frame effect of a successful registration: a default registration
writes only the default-service slot and leaves the services map
untouched; a named registration leaves the default slot and every other
name's entry untouched and installs exactly its own entry. -/
theorem c9_register_frame_effect (m : serviceMap) (rcvr : Receiver)
    (name : String) (p d : Bool)
    (h : (register m rcvr name p d).2 = none) :
    (d = true →
      (register m rcvr name p d).1.services = m.services ∧
      (register m rcvr name p d).1.defaultService
        = some (mkService rcvr name p)) ∧
    (d = false →
      (register m rcvr name p d).1.defaultService = m.defaultService ∧
      ((register m rcvr name p d).1.services.getD []).lookup
          (mkService rcvr name p).name = some (mkService rcvr name p) ∧
      ∀ q, q ≠ (mkService rcvr name p).name →
        ((register m rcvr name p d).1.services.getD []).lookup q
          = (m.services.getD []).lookup q) := by
  constructor
  · intro hd
    subst hd
    rw [register_default_of_succeeds m m rcvr name p h]
    exact ⟨rfl, rfl⟩
  · intro hd
    subst hd
    rw [register_named_success_state m rcvr name p h]
    refine ⟨rfl, ?_, ?_⟩
    · show (mapInsert (mkService rcvr name p).name (mkService rcvr name p)
          (m.services.getD [])).lookup (mkService rcvr name p).name
        = some (mkService rcvr name p)
      rw [lookup_mapInsert, if_pos rfl]
    · intro q hq
      show (mapInsert (mkService rcvr name p).name (mkService rcvr name p)
          (m.services.getD [])).lookup q = (m.services.getD []).lookup q
      rw [lookup_mapInsert, if_neg hq]

/-- Witness for C9: a default registration of `Calc` leaves the services
map unchanged. -/
theorem c9_register_frame_effect_witness :
    (register emptyMap calcRcvr "Calc" false true).1.services
      = emptyMap.services :=
  ((c9_register_frame_effect emptyMap calcRcvr "Calc" false true
    (by decide)).1 rfl).1

end GoXmlRpc
